import Mathlib

/-!
Shallow embedding of the Grafana storage service façade
(`pkg/services/store/service.go`): the error taxonomy, the `Upload` and
`Delete` pipelines over an abstract `Backend`, org resolution (`getOrgId`),
and `ProvideService` construction.  Parts of the repository that the façade
calls but whose implementation is not part of the shown source
(`validateUploadRequest`, `sanitizeUploadRequest`, the `nestedTree` lookup,
the disk/SQL backends, `ac.GlobalOrgID`) are modelled from the spec and
marked as such in their doc comments.
-/

set_option autoImplicit false

namespace Store

/-- Go error values in scope of the service.  Each `errors.New` sentinel in
`service.go` is one constructor; `errorf m` models a fresh error value built
by `fmt.Errorf(m)` (distinct from every sentinel, as in Go). -/
inductive GoError where
  | errUploadFeatureDisabled
  | errUnsupportedStorage
  | errUploadInternalError
  | errValidationFailed
  | errFileAlreadyExists
  | errorf (msg : String)
  deriving DecidableEq

/-- const RootPublicStatic = "public-static" -/
def RootPublicStatic : String := "public-static"

/-- const RootResources = "resources" -/
def RootResources : String := "resources"

/-- const MAX_UPLOAD_SIZE = 3 * 1024 * 1024 -/
def MAX_UPLOAD_SIZE : Nat := 3 * 1024 * 1024

/-- strings.HasPrefix, evaluable on character lists. -/
def strStartsWith (s p : String) : Bool := p.data.isPrefixOf s.data

/-- strings.TrimPrefix: drops `p` from the front of `s` when present. -/
def trimPref (s p : String) : String :=
  if strStartsWith s p then ⟨s.data.drop p.data.length⟩ else s

/-- Splits a character list into `/`-separated segments. -/
def splitSegsAux : List Char → List Char → List (List Char)
  | [], acc => [acc.reverse]
  | c :: rest, acc =>
    if c = '/' then acc.reverse :: splitSegsAux rest []
    else splitSegsAux rest (c :: acc)

/-- True when some `/`-separated segment of the path is `..`. -/
def pathContainsTraversal (s : String) : Bool :=
  (splitSegsAux s.data []).any fun seg => seg = ['.', '.']

/-- models.SignedInUser: the façade reads only the OrgId field. -/
structure SignedInUser where
  OrgId : Int
  deriving DecidableEq

/-- Modelled from the spec: `ac.GlobalOrgID`, the reserved sentinel
organization id denoting the global/shared namespace; the accesscontrol
package is not part of the shown source. -/
def GlobalOrgID : Int := 0

/-- getOrgId from service.go: nil user resolves to the global org. -/
def getOrgId : Option SignedInUser → Int
  | none => GlobalOrgID
  | some user => user.OrgId

/-- UploadRequest from service.go, with Go byte slices as `List Nat`. -/
structure UploadRequest where
  Contents : List Nat
  MimeType : String
  Path : String
  CacheControl : String
  ContentDisposition : String
  Properties : List (String × String)
  EntityType : String
  OverwriteExistingFile : Bool
  deriving DecidableEq

/-- filestorage.UpsertFileCommand: the sanitized, backend-ready form. -/
structure UpsertFileCommand where
  Path : String
  Contents : List Nat
  MimeType : String
  CacheControl : String
  ContentDisposition : String
  Properties : List (String × String)
  deriving DecidableEq

/-- validationResult from the store package. -/
structure validationResult where
  ok : Bool
  reason : String
  deriving DecidableEq

/-- Modelled from the spec: `validateUploadRequest` is declared on the
`StorageService` interface but its implementation is not part of the shown
source.  Spec §4.3 step 2 requires, all-must-pass: payload non-empty and at
most the 3 MiB maximum, and the root-relative path free of `..` traversal
segments.  The further character/extension/MIME allow-list is a policy
detail the spec leaves to the implementer and is not modelled. -/
def validateUploadRequest (req : UploadRequest) (storagePath : String) :
    validationResult :=
  if req.Contents.length = 0 then ⟨false, "file is empty"⟩
  else if req.Contents.length > MAX_UPLOAD_SIZE then
    ⟨false, "file size exceeds the maximum"⟩
  else if pathContainsTraversal storagePath then
    ⟨false, "path contains a traversal segment"⟩
  else ⟨true, ""⟩

/-- Modelled from the spec: `sanitizeUploadRequest` is declared on the
`StorageService` interface but its implementation is not part of the shown
source.  Spec §4.3 step 3: the path is rebased root-relative and payload,
MIME, cache-control, content-disposition and properties are passed through
unchanged; `none` would model the internal sanitization failure. -/
def sanitizeUploadRequest (req : UploadRequest) (storagePath : String) :
    Option UpsertFileCommand :=
  some ⟨storagePath, req.Contents, req.MimeType, req.CacheControl,
    req.ContentDisposition, req.Properties⟩

/-- One backend invocation, recorded in the order the service issues them. -/
inductive BackendOp where
  | getOp (path : String)
  | upsertOp (cmd : UpsertFileCommand)
  | deleteOp (path : String)
  deriving DecidableEq

/-- Looks up a stored file by path. -/
def lookupFile : List (String × List Nat) → String → Option (List Nat)
  | [], _ => none
  | (q, d) :: rest, p => if q = p then some d else lookupFile rest p

/-- Replaces or inserts a stored file. -/
def upsertFile : List (String × List Nat) → String → List Nat →
    List (String × List Nat)
  | [], p, c => [(p, c)]
  | (q, d) :: rest, p, c =>
    if q = p then (p, c) :: rest else (q, d) :: upsertFile rest p c

/-- Removes a stored file. -/
def removeFile : List (String × List Nat) → String → List (String × List Nat)
  | [], _ => []
  | (q, d) :: rest, p =>
    if q = p then removeFile rest p else (q, d) :: removeFile rest p

/-- The abstract Backend capability (spec §6, an external collaborator):
stored files by path, plus per-operation injectable failures so every
backend behavior the service must react to is representable. -/
structure Backend where
  files : List (String × List Nat)
  getErr : Option GoError
  upsertErr : Option GoError
  deleteErr : Option GoError
  deriving DecidableEq

/-- Backend Get: an error, or the file when present (`none` = not found). -/
def Backend.get (b : Backend) (path : String) :
    Except GoError (Option (List Nat)) :=
  match b.getErr with
  | some e => Except.error e
  | none => Except.ok (lookupFile b.files path)

/-- Backend Upsert: an error, or the updated backend state. -/
def Backend.upsert (b : Backend) (cmd : UpsertFileCommand) :
    Except GoError Backend :=
  match b.upsertErr with
  | some e => Except.error e
  | none => Except.ok { b with files := upsertFile b.files cmd.Path cmd.Contents }

/-- Backend Delete: an error, or the updated backend state. -/
def Backend.delete (b : Backend) (path : String) : Except GoError Backend :=
  match b.deleteErr with
  | some e => Except.error e
  | none => Except.ok { b with files := removeFile b.files path }

/-- Modelled from the spec: the nestedTree (root registry + namespace tree)
implementation is not part of the shown source; the façade only needs its
`getRoot` lookup and the `ListFolder`/`GetFile` delegates, kept abstract
over the result types `Frame` and `File`. -/
structure nestedTree (Frame File : Type) where
  getRoot : Int → String → Option Backend
  ListFolder : Int → String → Frame
  GetFile : Int → String → File

/-- standardStorageService: the façade holds the tree (the sql handle is
unused by the operations under study). -/
structure standardStorageService (Frame File : Type) where
  tree : nestedTree Frame File

/-- Outcome of one façade write operation: the returned Go error (`none` is
the nil error), the backend operations invoked in order, and the final
state of the resources root backend (`none` when it is not mounted). -/
structure OpResult where
  err : Option GoError
  trace : List BackendOp
  backend : Option Backend
  deriving DecidableEq

/-- List from service.go: delegates to tree.ListFolder at the resolved org. -/
def standardStorageService.List {Frame File : Type}
    (s : standardStorageService Frame File) (user : Option SignedInUser)
    (path : String) : Frame :=
  s.tree.ListFolder (getOrgId user) path

/-- Read from service.go: delegates to tree.GetFile at the resolved org. -/
def standardStorageService.Read {Frame File : Type}
    (s : standardStorageService Frame File) (user : Option SignedInUser)
    (path : String) : File :=
  s.tree.GetFile (getOrgId user) path

/-- Upload from service.go, step for step: resources-root lookup, prefix
check, validation, sanitization, the overwrite existence check, commit. -/
def standardStorageService.Upload {Frame File : Type}
    (s : standardStorageService Frame File) (user : Option SignedInUser)
    (req : UploadRequest) : OpResult :=
  match s.tree.getRoot (getOrgId user) RootResources with
  | none => ⟨some GoError.errUploadFeatureDisabled, [], none⟩
  | some upload =>
    if !(strStartsWith req.Path (RootResources ++ "/")) then
      ⟨some GoError.errUnsupportedStorage, [], some upload⟩
    else
      let storagePath := trimPref req.Path RootResources
      let validationResult := validateUploadRequest req storagePath
      if !validationResult.ok then
        ⟨some GoError.errValidationFailed, [], some upload⟩
      else
        match sanitizeUploadRequest req storagePath with
        | none => ⟨some GoError.errUploadInternalError, [], some upload⟩
        | some upsertCommand =>
          if !req.OverwriteExistingFile then
            match upload.get storagePath with
            | Except.error _ =>
              ⟨some GoError.errUploadInternalError,
                [BackendOp.getOp storagePath], some upload⟩
            | Except.ok (some _) =>
              ⟨some GoError.errFileAlreadyExists,
                [BackendOp.getOp storagePath], some upload⟩
            | Except.ok none =>
              match upload.upsert upsertCommand with
              | Except.error _ =>
                ⟨some GoError.errUploadInternalError,
                  [BackendOp.getOp storagePath,
                    BackendOp.upsertOp upsertCommand], some upload⟩
              | Except.ok b2 =>
                ⟨none, [BackendOp.getOp storagePath,
                  BackendOp.upsertOp upsertCommand], some b2⟩
          else
            match upload.upsert upsertCommand with
            | Except.error _ =>
              ⟨some GoError.errUploadInternalError,
                [BackendOp.upsertOp upsertCommand], some upload⟩
            | Except.ok b2 =>
              ⟨none, [BackendOp.upsertOp upsertCommand], some b2⟩

/-- Delete from service.go: resources-root lookup (failing with a fresh
fmt.Errorf value), then the caller path handed verbatim to Backend Delete,
whose error is returned unchanged. -/
def standardStorageService.Delete {Frame File : Type}
    (s : standardStorageService Frame File) (user : Option SignedInUser)
    (path : String) : OpResult :=
  match s.tree.getRoot (getOrgId user) RootResources with
  | none => ⟨some (GoError.errorf ("upload feature is not enabled")), [], none⟩
  | some upload =>
    match upload.delete path with
    | Except.error e => ⟨some e, [BackendOp.deleteOp path], some upload⟩
    | Except.ok b2 => ⟨none, [BackendOp.deleteOp path], some b2⟩

/-- Result of LoadStorageConfig as ProvideService consumes it; only the
AddDevEnv flag feeds the decisions in ProvideService. -/
structure StorageSettings where
  AddDevEnv : Bool
  deriving DecidableEq

/-- Modelled from the spec: a mounted storage root with its builder-set
metadata; the disk/SQL storageRuntime implementations are not part of the
shown source. -/
structure storageRuntime where
  name : String
  description : String
  readOnly : Bool
  builtin : Bool
  deriving DecidableEq

/-- Modelled from the spec: newDiskStorage, before any builder call. -/
def newDiskStorage (name description : String) : storageRuntime :=
  ⟨name, description, false, false⟩

/-- Modelled from the spec: newSQLStorage, before any builder call. -/
def newSQLStorage (name description : String) : storageRuntime :=
  ⟨name, description, false, false⟩

/-- Builder call setReadOnly. -/
def storageRuntime.setReadOnly (s : storageRuntime) (v : Bool) : storageRuntime :=
  { s with readOnly := v }

/-- Builder call setBuiltin. -/
def storageRuntime.setBuiltin (s : storageRuntime) (v : Bool) : storageRuntime :=
  { s with builtin := v }

/-- Builder call setDescription. -/
def storageRuntime.setDescription (s : storageRuntime) (d : String) : storageRuntime :=
  { s with description := d }

/-- Environment facts ProvideService consults: the one-time os.Stat probe
for the devenv directory, whether setting.Env is production, and the
FlagStorageLocalUpload feature toggle. -/
structure ProvideServiceEnv where
  devenvExists : Bool
  envIsProd : Bool
  flagStorageLocalUpload : Bool
  deriving DecidableEq

/-- ProvideService from service.go: `loadResult` is what LoadStorageConfig
returned, settings paired with a possible error; the source checks the
error with an empty `if err != nil` body, so the error is discarded and
construction continues with the returned settings.  The result is the
global root list and the per-org storage factory handed to the tree. -/
def ProvideService (loadResult : StorageSettings × Option GoError)
    (env : ProvideServiceEnv) :
    List storageRuntime × (Int → List storageRuntime) :=
  let settings := loadResult.1
  let globalRoots :=
    [((newDiskStorage RootPublicStatic ("Public static files")).setReadOnly
        true).setBuiltin true |>.setDescription
        "Access files from the static public files"]
  let globalRoots :=
    if settings.AddDevEnv && !env.envIsProd && env.devenvExists then
      globalRoots ++
        [(newDiskStorage ("devenv") "Development Environment").setReadOnly
          false |>.setDescription
          "Explore files within the developer environment directly"]
    else globalRoots
  let initOrgStorages := fun (_orgId : Int) =>
    if env.flagStorageLocalUpload then
      [(newSQLStorage RootResources ("Resources")).setBuiltin true
        |>.setDescription ("Upload custom resource files")]
    else []
  (globalRoots, initOrgStorages)

/-- A tree with no root mounted for any org (upload feature disabled). -/
def treeNone : nestedTree Unit Unit :=
  ⟨fun _ _ => none, fun _ _ => (), fun _ _ => ()⟩

/-- Service over the empty tree. -/
def svcNone : standardStorageService Unit Unit := ⟨treeNone⟩

/-- A tree mounting `b` as the resources root for every org. -/
def treeWith (b : Backend) : nestedTree Unit Unit :=
  ⟨fun _ name => if name = RootResources then some b else none,
    fun _ _ => (), fun _ _ => ()⟩

/-- Service whose resources root is backend `b`. -/
def svcWith (b : Backend) : standardStorageService Unit Unit := ⟨treeWith b⟩

/-- A healthy backend holding no files. -/
def bEmpty : Backend := ⟨[], none, none, none⟩

/-- A healthy backend already holding a file at /a.txt. -/
def bExisting : Backend := ⟨[("/a.txt", [1])], none, none, none⟩

/-- A backend whose Delete operation fails. -/
def bDeleteErr : Backend := ⟨[], none, none, some (GoError.errorf ("backend disk failure"))⟩

/-- A backend whose Upsert and Delete operations fail with the same error. -/
def bWriteErr : Backend :=
  ⟨[], none, some (GoError.errorf ("backend write failure")),
    some (GoError.errorf ("backend write failure"))⟩

/-- An UploadRequest with the given path and payload and neutral metadata. -/
def mkReq (path : String) (contents : List Nat) : UploadRequest :=
  ⟨contents, "text/plain", path, "", "", [], "file", false⟩

/-- A request whose payload exceeds MAX_UPLOAD_SIZE by one byte. -/
def bigReq : UploadRequest :=
  mkReq ("resources/big.bin") (List.replicate (MAX_UPLOAD_SIZE + 1) 0)

/-! Theorems. -/

/-- Validation reads nothing but the payload and the storage path, so the
overwrite flag never changes its outcome. -/
theorem validateUploadRequest_overwrite (req : UploadRequest) (v : Bool)
    (sp : String) :
    validateUploadRequest { req with OverwriteExistingFile := v } sp
      = validateUploadRequest req sp := rfl

/-- After an upsert, looking up the upserted path yields the new content. -/
theorem lookupFile_upsertFile (fs : List (String × List Nat)) (p : String)
    (c : List Nat) : lookupFile (upsertFile fs p c) p = some c := by
  induction fs with
  | nil => simp [upsertFile, lookupFile]
  | cons hd tl ih =>
    obtain ⟨q, d⟩ := hd
    by_cases h : q = p
    · simp [upsertFile, lookupFile, h]
    · simp [upsertFile, lookupFile, h, ih]

/-- C2 (counterexample): with the resources root unmounted, Upload returns
the ErrUploadFeatureDisabled sentinel while Delete returns a fresh
fmt.Errorf value with a different message, so the two error values are not
the same, contrary to the claim. -/
theorem upload_delete_disabled_errors_differ :
    (svcNone.Upload none (mkReq ("resources/x") [1])).err
      = some GoError.errUploadFeatureDisabled
    ∧ (svcNone.Delete none ("resources/x")).err
      = some (GoError.errorf ("upload feature is not enabled"))
    ∧ (svcNone.Upload none (mkReq ("resources/x") [1])).err
      ≠ (svcNone.Delete none ("resources/x")).err := by
  refine ⟨rfl, rfl, ?_⟩
  decide

/-- C2 (amended): with the resources root unmounted for the caller's org,
Upload returns ErrUploadFeatureDisabled and Delete returns a distinct
ad-hoc error reading "upload feature is not enabled"; neither operation
invokes any backend operation. -/
theorem upload_delete_feature_disabled {Frame File : Type}
    (s : standardStorageService Frame File) (user : Option SignedInUser)
    (req : UploadRequest) (path : String)
    (hroot : s.tree.getRoot (getOrgId user) RootResources = none) :
    (s.Upload user req).err = some GoError.errUploadFeatureDisabled
    ∧ (s.Upload user req).trace = []
    ∧ (s.Delete user path).err
        = some (GoError.errorf ("upload feature is not enabled"))
    ∧ (s.Delete user path).trace = [] := by
  refine ⟨?_, ?_, ?_, ?_⟩ <;>
    simp [standardStorageService.Upload, standardStorageService.Delete, hroot]

/-- C2 (witness): the amended statement at the service with no mounted
roots, an anonymous caller and a concrete request. -/
theorem upload_delete_feature_disabled_witness :
    (svcNone.Upload none (mkReq ("resources/w") [1])).err
      = some GoError.errUploadFeatureDisabled
    ∧ (svcNone.Upload none (mkReq ("resources/w") [1])).trace = []
    ∧ (svcNone.Delete none ("resources/w")).err
        = some (GoError.errorf ("upload feature is not enabled"))
    ∧ (svcNone.Delete none ("resources/w")).trace = [] :=
  upload_delete_feature_disabled svcNone none (mkReq ("resources/w") [1])
    "resources/w" rfl

/-- C6: with the resources root mounted but the request path not prefixed
by "resources/", Upload fails with ErrUnsupportedStorage before any
validation or backend operation; the backend state is untouched. -/
theorem upload_unsupported_storage {Frame File : Type}
    (s : standardStorageService Frame File) (user : Option SignedInUser)
    (req : UploadRequest) (b : Backend)
    (hroot : s.tree.getRoot (getOrgId user) RootResources = some b)
    (hpre : strStartsWith req.Path (RootResources ++ "/") = false) :
    (s.Upload user req).err = some GoError.errUnsupportedStorage
    ∧ (s.Upload user req).trace = []
    ∧ (s.Upload user req).backend = some b := by
  refine ⟨?_, ?_, ?_⟩ <;> simp [standardStorageService.Upload, hroot, hpre]

/-- C6 (witness): a path targeting a different root is rejected as
unsupported storage with no backend call. -/
theorem upload_unsupported_storage_witness :
    ((svcWith bEmpty).Upload none (mkReq ("dashboards/x") [1])).err
      = some GoError.errUnsupportedStorage
    ∧ ((svcWith bEmpty).Upload none (mkReq ("dashboards/x") [1])).trace = []
    ∧ ((svcWith bEmpty).Upload none (mkReq ("dashboards/x") [1])).backend
        = some bEmpty :=
  upload_unsupported_storage (svcWith bEmpty) none (mkReq ("dashboards/x") [1])
    bEmpty (by decide) (by decide)

/-- C8: org resolution: a nil caller resolves to the global sentinel org
and a present caller to its own org id; List and Read delegate to the tree
at exactly that org, and Upload and Delete with a nil caller behave as for
a caller in the global org. -/
theorem org_resolution :
    getOrgId none = GlobalOrgID
    ∧ (∀ u : SignedInUser, getOrgId (some u) = u.OrgId)
    ∧ (∀ (Frame File : Type) (s : standardStorageService Frame File)
        (path : String),
        s.List none path = s.tree.ListFolder GlobalOrgID path
        ∧ (∀ u : SignedInUser,
            s.List (some u) path = s.tree.ListFolder u.OrgId path)
        ∧ s.Read none path = s.tree.GetFile GlobalOrgID path
        ∧ (∀ u : SignedInUser,
            s.Read (some u) path = s.tree.GetFile u.OrgId path)
        ∧ s.Delete none path = s.Delete (some ⟨GlobalOrgID⟩) path)
    ∧ (∀ (Frame File : Type) (s : standardStorageService Frame File)
        (req : UploadRequest),
        s.Upload none req = s.Upload (some ⟨GlobalOrgID⟩) req) :=
  ⟨rfl, fun _ => rfl,
    fun _ _ _ _ => ⟨rfl, fun _ => rfl, rfl, fun _ => rfl, rfl⟩,
    fun _ _ _ _ => rfl⟩

/-- C9: with the resources root mounted, Delete hands the caller-supplied
path to the backend Delete verbatim, with no prefix check, stripping or
validation: the single backend operation is Delete at exactly that path. -/
theorem delete_forwards_path_verbatim {Frame File : Type}
    (s : standardStorageService Frame File) (user : Option SignedInUser)
    (path : String) (b : Backend)
    (hroot : s.tree.getRoot (getOrgId user) RootResources = some b) :
    (s.Delete user path).trace = [BackendOp.deleteOp path] := by
  unfold standardStorageService.Delete
  rw [hroot]
  rcases h : b.delete path with e | b2 <;> simp [h]

/-- C9 (witness): a path naming a different root and containing a
traversal segment is still forwarded unchanged to the resources backend. -/
theorem delete_forwards_path_verbatim_witness :
    ((svcWith bEmpty).Delete none ("public-static/../secret")).trace
      = [BackendOp.deleteOp ("public-static/../secret")] :=
  delete_forwards_path_verbatim (svcWith bEmpty) none
    "public-static/../secret" bEmpty (by decide)

/-- C1: with the resources root mounted, the request prefixed and valid,
and a file already stored at the sanitized path: uploading with
OverwriteExistingFile=false returns the file-already-exists conflict,
invokes only the existence Get (never Upsert) and leaves the backend
unchanged; with OverwriteExistingFile=true the existence check is skipped,
the single backend call is Upsert, and the stored content at the path is
replaced by the request payload. -/
theorem upload_conflict_vs_overwrite {Frame File : Type}
    (s : standardStorageService Frame File) (user : Option SignedInUser)
    (req : UploadRequest) (b : Backend) (c : List Nat)
    (hroot : s.tree.getRoot (getOrgId user) RootResources = some b)
    (hpre : strStartsWith req.Path (RootResources ++ "/") = true)
    (hvalid : (validateUploadRequest req
      (trimPref req.Path RootResources)).ok = true)
    (hget : b.getErr = none)
    (hup : b.upsertErr = none)
    (hfile : lookupFile b.files (trimPref req.Path RootResources) = some c) :
    (s.Upload user { req with OverwriteExistingFile := false }).err
        = some GoError.errFileAlreadyExists
    ∧ (s.Upload user { req with OverwriteExistingFile := false }).trace
        = [BackendOp.getOp (trimPref req.Path RootResources)]
    ∧ (s.Upload user { req with OverwriteExistingFile := false }).backend
        = some b
    ∧ (s.Upload user { req with OverwriteExistingFile := true }).err = none
    ∧ (∃ cmd, (s.Upload user { req with OverwriteExistingFile := true }).trace
        = [BackendOp.upsertOp cmd])
    ∧ ((s.Upload user { req with OverwriteExistingFile := true }).backend.map
        fun b2 => lookupFile b2.files (trimPref req.Path RootResources))
        = some (some req.Contents) := by
  refine ⟨?_, ?_, ?_, ?_, ?_, ?_⟩ <;>
    simp [standardStorageService.Upload, hroot, hpre, hvalid, hget, hup,
      hfile, validateUploadRequest_overwrite, sanitizeUploadRequest,
      Backend.get, Backend.upsert, lookupFile_upsertFile]

/-- C1 (witness): the conflict/overwrite behavior at a concrete service
whose backend already stores content [1] at /a.txt. -/
theorem upload_conflict_vs_overwrite_witness :
    ((svcWith bExisting).Upload none
        { mkReq ("resources/a.txt") [2] with OverwriteExistingFile := false }).err
        = some GoError.errFileAlreadyExists
    ∧ ((svcWith bExisting).Upload none
        { mkReq ("resources/a.txt") [2] with OverwriteExistingFile := false }).trace
        = [BackendOp.getOp (trimPref ("resources/a.txt") RootResources)]
    ∧ ((svcWith bExisting).Upload none
        { mkReq ("resources/a.txt") [2] with OverwriteExistingFile := false }).backend
        = some bExisting
    ∧ ((svcWith bExisting).Upload none
        { mkReq ("resources/a.txt") [2] with OverwriteExistingFile := true }).err
        = none
    ∧ (∃ cmd, ((svcWith bExisting).Upload none
        { mkReq ("resources/a.txt") [2] with OverwriteExistingFile := true }).trace
        = [BackendOp.upsertOp cmd])
    ∧ (((svcWith bExisting).Upload none
        { mkReq ("resources/a.txt") [2] with OverwriteExistingFile := true }).backend.map
        fun b2 => lookupFile b2.files (trimPref ("resources/a.txt") RootResources))
        = some (some (mkReq ("resources/a.txt") [2]).Contents) :=
  upload_conflict_vs_overwrite (svcWith bExisting) none
    (mkReq ("resources/a.txt") [2]) bExisting [1] (by decide) (by decide)
    (by decide) (by decide) (by decide) (by decide)

/-- C3 (counterexample): a Delete whose backend Delete fails surfaces the
backend's own error value to the caller, not ErrUploadInternalError,
contrary to the claim. -/
theorem delete_propagates_backend_error :
    ((svcWith bDeleteErr).Delete none ("resources/x")).trace
      = [BackendOp.deleteOp ("resources/x")]
    ∧ ((svcWith bDeleteErr).Delete none ("resources/x")).err
      = some (GoError.errorf ("backend disk failure"))
    ∧ ((svcWith bDeleteErr).Delete none ("resources/x")).err
      ≠ some GoError.errUploadInternalError := by
  refine ⟨rfl, rfl, ?_⟩
  decide

/-- C3 (amended): when the backend Upsert fails, Upload surfaces only
ErrUploadInternalError, never the backend's error; but when the backend
Delete fails, Delete propagates the backend's error value verbatim. -/
theorem backend_error_surfacing {Frame File : Type}
    (s : standardStorageService Frame File) (user : Option SignedInUser)
    (req : UploadRequest) (path : String) (b : Backend) (e : GoError)
    (hroot : s.tree.getRoot (getOrgId user) RootResources = some b)
    (hpre : strStartsWith req.Path (RootResources ++ "/") = true)
    (hvalid : (validateUploadRequest req
      (trimPref req.Path RootResources)).ok = true)
    (hup : b.upsertErr = some e)
    (hreach : req.OverwriteExistingFile = true
      ∨ (b.getErr = none
        ∧ lookupFile b.files (trimPref req.Path RootResources) = none))
    (hdel : b.deleteErr = some e) :
    (s.Upload user req).err = some GoError.errUploadInternalError
    ∧ (s.Delete user path).err = some e := by
  constructor
  · rcases hreach with hover | ⟨hget, hmiss⟩
    · simp [standardStorageService.Upload, hroot, hpre, hvalid, hover, hup,
        sanitizeUploadRequest, Backend.upsert]
    · simp [standardStorageService.Upload, hroot, hpre, hvalid, hget, hmiss,
        hup, sanitizeUploadRequest, Backend.get, Backend.upsert]
      split <;> rfl
  · simp [standardStorageService.Delete, hroot, hdel, Backend.delete]

/-- C3 (witness): the amended statement at a concrete backend whose write
operations fail. -/
theorem backend_error_surfacing_witness :
    ((svcWith bWriteErr).Upload none (mkReq ("resources/x.txt") [7])).err
      = some GoError.errUploadInternalError
    ∧ ((svcWith bWriteErr).Delete none ("resources/x.txt")).err
      = some (GoError.errorf ("backend write failure")) :=
  backend_error_surfacing (svcWith bWriteErr) none
    (mkReq ("resources/x.txt") [7]) "resources/x.txt" bWriteErr
    (GoError.errorf ("backend write failure")) (by decide) (by decide)
    (by decide) (by decide) (Or.inr ⟨by decide, by decide⟩) (by decide)

/-- C4: a prefixed upload into the mounted resources root whose payload
exceeds MAX_UPLOAD_SIZE fails with ErrValidationFailed and invokes no
backend operation. -/
theorem upload_size_limit {Frame File : Type}
    (s : standardStorageService Frame File) (user : Option SignedInUser)
    (req : UploadRequest) (b : Backend)
    (hroot : s.tree.getRoot (getOrgId user) RootResources = some b)
    (hpre : strStartsWith req.Path (RootResources ++ "/") = true)
    (hsize : req.Contents.length > MAX_UPLOAD_SIZE) :
    (s.Upload user req).err = some GoError.errValidationFailed
    ∧ (s.Upload user req).trace = []
    ∧ (s.Upload user req).backend = some b := by
  have h0 : ¬ req.Contents.length = 0 := by omega
  have hvr : (validateUploadRequest req
      (trimPref req.Path RootResources)).ok = false := by
    simp [validateUploadRequest, h0, hsize]
  refine ⟨?_, ?_, ?_⟩ <;>
    simp [standardStorageService.Upload, hroot, hpre, hvr]

/-- C4 (witness): an upload one byte over the 3 MiB maximum is rejected as
validation failure with an empty backend trace. -/
theorem upload_size_limit_witness :
    ((svcWith bEmpty).Upload none bigReq).err
      = some GoError.errValidationFailed
    ∧ ((svcWith bEmpty).Upload none bigReq).trace = []
    ∧ ((svcWith bEmpty).Upload none bigReq).backend = some bEmpty :=
  upload_size_limit (svcWith bEmpty) none bigReq bEmpty (by decide)
    (by decide)
    (by simp only [bigReq, mkReq, List.length_replicate]; omega)

/-- C5: a prefixed upload into the mounted resources root whose sanitized
path still contains a `..` traversal segment fails with
ErrValidationFailed and invokes no backend operation. -/
theorem upload_traversal_rejected {Frame File : Type}
    (s : standardStorageService Frame File) (user : Option SignedInUser)
    (req : UploadRequest) (b : Backend)
    (hroot : s.tree.getRoot (getOrgId user) RootResources = some b)
    (hpre : strStartsWith req.Path (RootResources ++ "/") = true)
    (htrav : pathContainsTraversal (trimPref req.Path RootResources) = true) :
    (s.Upload user req).err = some GoError.errValidationFailed
    ∧ (s.Upload user req).trace = []
    ∧ (s.Upload user req).backend = some b := by
  have hvr : (validateUploadRequest req
      (trimPref req.Path RootResources)).ok = false := by
    unfold validateUploadRequest
    split
    · rfl
    · split
      · rfl
      · simp [htrav]
  refine ⟨?_, ?_, ?_⟩ <;>
    simp [standardStorageService.Upload, hroot, hpre, hvr]

/-- C5 (witness): uploading to resources/../secret is rejected as a
validation failure with an empty backend trace. -/
theorem upload_traversal_rejected_witness :
    ((svcWith bEmpty).Upload none (mkReq ("resources/../secret") [1])).err
      = some GoError.errValidationFailed
    ∧ ((svcWith bEmpty).Upload none (mkReq ("resources/../secret") [1])).trace
      = []
    ∧ ((svcWith bEmpty).Upload none (mkReq ("resources/../secret") [1])).backend
      = some bEmpty :=
  upload_traversal_rejected (svcWith bEmpty) none
    (mkReq ("resources/../secret") [1]) bEmpty (by decide) (by decide)
    (by decide)

/-- C7: any two prefixed uploads that fail validation, whatever the check
that failed and whatever the logged reason, surface the one generic
ErrValidationFailed value: both errors are that sentinel and hence equal,
and no backend operation occurs for either. -/
theorem validation_failure_single_generic_error {Frame File : Type}
    (s : standardStorageService Frame File) (u1 u2 : Option SignedInUser)
    (r1 r2 : UploadRequest) (b1 b2 : Backend)
    (hroot1 : s.tree.getRoot (getOrgId u1) RootResources = some b1)
    (hroot2 : s.tree.getRoot (getOrgId u2) RootResources = some b2)
    (hpre1 : strStartsWith r1.Path (RootResources ++ "/") = true)
    (hpre2 : strStartsWith r2.Path (RootResources ++ "/") = true)
    (hfail1 : (validateUploadRequest r1
      (trimPref r1.Path RootResources)).ok = false)
    (hfail2 : (validateUploadRequest r2
      (trimPref r2.Path RootResources)).ok = false) :
    (s.Upload u1 r1).err = some GoError.errValidationFailed
    ∧ (s.Upload u2 r2).err = some GoError.errValidationFailed
    ∧ (s.Upload u1 r1).err = (s.Upload u2 r2).err
    ∧ (s.Upload u1 r1).trace = [] ∧ (s.Upload u2 r2).trace = [] := by
  refine ⟨?_, ?_, ?_, ?_, ?_⟩ <;>
    simp [standardStorageService.Upload, hroot1, hroot2, hpre1, hpre2,
      hfail1, hfail2]

/-- C7 (witness): an empty-payload upload and a traversal-path upload fail
different validation checks yet surface the identical generic error. -/
theorem validation_failure_single_generic_error_witness :
    ((svcWith bEmpty).Upload none (mkReq ("resources/e.txt") [])).err
      = some GoError.errValidationFailed
    ∧ ((svcWith bEmpty).Upload none (mkReq ("resources/../s") [1])).err
      = some GoError.errValidationFailed
    ∧ ((svcWith bEmpty).Upload none (mkReq ("resources/e.txt") [])).err
      = ((svcWith bEmpty).Upload none (mkReq ("resources/../s") [1])).err
    ∧ ((svcWith bEmpty).Upload none (mkReq ("resources/e.txt") [])).trace = []
    ∧ ((svcWith bEmpty).Upload none (mkReq ("resources/../s") [1])).trace = [] :=
  validation_failure_single_generic_error (svcWith bEmpty) none none
    (mkReq ("resources/e.txt") []) (mkReq ("resources/../s") [1]) bEmpty bEmpty
    (by decide) (by decide) (by decide) (by decide) (by decide) (by decide)

/-- C10: ProvideService discards the error returned by LoadStorageConfig:
construction never fails and yields exactly the same service whether the
configuration load erred or not, proceeding with the returned settings. -/
theorem provide_service_ignores_config_error (settings : StorageSettings)
    (e : GoError) (env : ProvideServiceEnv) :
    ProvideService (settings, some e) env
      = ProvideService (settings, none) env := rfl

end Store
